import Mathlib

/-!
Verification of the wish (gacha roll) engine of `bismarck`
(`src/bismarck_commands/src/wish.rs`), shallowly embedded in Lean.

Probabilities computed by the engine are embedded as rationals (`ℚ`);
the `u32` counters and pool sizes as `ℕ` (every subtraction in the
source is performed only when in range, so `Nat` truncated subtraction
agrees with `u32` subtraction on the executed branches).

The injected random source (`rand::Rng`) is embedded as a record of the
draw outcomes one roll can consume: the uniform float `rng.gen()`, the
Bernoulli outcome `rng.gen_bool(p)`, and for `rng.gen_range(0..n)` an
arbitrary function whose value is reduced mod `n`; sampling an empty
range (`n = 0`) fails in `rand`, so the embedded draw returns `none`
there and roll functions return `Option`.
-/

/-- Per `wish.rs`: rolls made since the last 5★ / 4★ drop. -/
structure RegularState where
  since_s5 : Nat
  since_s4 : Nat
deriving DecidableEq

/-- Per `wish.rs`: regular pity state plus the featured-guarantee flags. -/
structure FeaturedState where
  base : RegularState
  last_s5_featured : Bool
  last_s4_featured : Bool
deriving DecidableEq

/-- Base drop chances of the two high rarities. -/
structure Weights where
  s5 : ℚ
  s4 : ℚ
deriving DecidableEq

/-- Pity thresholds: 5★ soft-pity start, 5★ hard cap, 4★ guarantee point. -/
structure Pity where
  s5_start : Nat
  s5_end : Nat
  s4_proc : Nat
deriving DecidableEq

/-- Embedding of `Weights::get_distribution`: the two cumulative
probability boundaries `[s5_odds, s4_odds + s5_odds]`, as a pair. -/
def Weights.get_distribution (w : Weights) (pity : Pity) (state : RegularState) : ℚ × ℚ :=
  let s5_odds :=
    if state.since_s5 ≤ pity.s5_start then w.s5
    else
      let inc := (1 - w.s5) / ((pity.s5_end - pity.s5_start : ℕ) : ℚ)
      w.s5 + inc * ((state.since_s5 - pity.s5_start : ℕ) : ℚ)
  let s4_odds :=
    if state.since_s4 < pity.s4_proc then w.s4
    else
      let inc := (1 - w.s4) / 2
      w.s4 + inc * ((state.since_s4 - pity.s4_proc + 1 : ℕ) : ℚ)
  (s5_odds, s4_odds + s5_odds)

/-- One roll's worth of outcomes from the injected random source. -/
structure Rng where
  u : ℚ
  bern : Bool
  idx : Nat → Nat

/-- Embedding of `rng.gen_range(0..n)`: an arbitrary value reduced into
the range; `rand` fails on an empty range, embedded as `none`. -/
def Rng.gen_range (rng : Rng) (n : Nat) : Option Nat :=
  if n = 0 then none else some (rng.idx n % n)

/-- Embedding of `rng.gen_bool(p)`: the Bernoulli outcome supplied by
the source (the probability only shapes the distribution, not the type). -/
def Rng.gen_bool (rng : Rng) (_p : ℚ) : Bool :=
  rng.bern

/-- The five outcome kinds of a roll. -/
inductive RollKind where
  | FiveStar
  | FiveStarFeatured
  | FourStar
  | FourStarFeatured
  | ThreeStar
deriving DecidableEq

/-- Outcome of one pull: rarity kind and item index within its pool. -/
structure Roll where
  kind : RollKind
  index : Nat
deriving DecidableEq

/-- Embedding of `struct RegularWish`. -/
structure RegularWish where
  weights : Weights
  pity : Pity
  five_star_count : Nat
  four_star_count : Nat
  three_star_count : Nat

/-- Embedding of `struct FeaturedWish`. -/
structure FeaturedWish where
  base : RegularWish
  five_star_featured_count : Nat
  four_star_featured_count : Nat
  featured_chance : ℚ

/-- Embedding of `RegularWish::make_s3_roll`. -/
def RegularWish.make_s3_roll (w : RegularWish) (state : RegularState) (rng : Rng) :
    Option (Roll × RegularState) := do
  let i ← rng.gen_range w.three_star_count
  pure (⟨RollKind.ThreeStar, i⟩, ⟨state.since_s5 + 1, state.since_s4 + 1⟩)

/-- Embedding of `RegularWish::make_s4_roll`. -/
def RegularWish.make_s4_roll (w : RegularWish) (state : RegularState) (rng : Rng) :
    Option (Roll × RegularState) := do
  let i ← rng.gen_range w.four_star_count
  pure (⟨RollKind.FourStar, i⟩, ⟨state.since_s5 + 1, 1⟩)

/-- Embedding of `RegularWish::make_s5_roll`. -/
def RegularWish.make_s5_roll (w : RegularWish) (state : RegularState) (rng : Rng) :
    Option (Roll × RegularState) := do
  let i ← rng.gen_range w.five_star_count
  pure (⟨RollKind.FiveStar, i⟩, ⟨1, state.since_s4 + 1⟩)

/-- Embedding of `RegularWish::roll`. -/
def RegularWish.roll (w : RegularWish) (state : RegularState) (rng : Rng) :
    Option (Roll × RegularState) :=
  let dist := w.weights.get_distribution w.pity state
  if rng.u < dist.1 then w.make_s5_roll state rng
  else if rng.u < dist.2 then w.make_s4_roll state rng
  else w.make_s3_roll state rng

/-- Embedding of `FeaturedWish::make_s3_roll`. -/
def FeaturedWish.make_s3_roll (w : FeaturedWish) (state : FeaturedState) (rng : Rng) :
    Option (Roll × FeaturedState) := do
  let (roll, base) ← w.base.make_s3_roll state.base rng
  pure (roll, ⟨base, state.last_s5_featured, state.last_s4_featured⟩)

/-- Embedding of `FeaturedWish::make_s4_roll`. -/
def FeaturedWish.make_s4_roll (w : FeaturedWish) (state : FeaturedState) (rng : Rng) :
    Option (Roll × FeaturedState) :=
  if !state.last_s4_featured || rng.gen_bool w.featured_chance then do
    let i ← rng.gen_range w.four_star_featured_count
    pure (⟨RollKind.FourStarFeatured, i⟩,
      ⟨⟨state.base.since_s5, 1⟩, state.last_s5_featured, true⟩)
  else do
    let (roll, base) ← w.base.make_s4_roll state.base rng
    pure (roll, ⟨base, state.last_s5_featured, false⟩)

/-- Embedding of `FeaturedWish::make_s5_roll`. The guard reads
`state.last_s4_featured`, exactly as the source does at wish.rs:332. -/
def FeaturedWish.make_s5_roll (w : FeaturedWish) (state : FeaturedState) (rng : Rng) :
    Option (Roll × FeaturedState) :=
  if !state.last_s4_featured || rng.gen_bool w.featured_chance then do
    let i ← rng.gen_range w.five_star_featured_count
    pure (⟨RollKind.FiveStarFeatured, i⟩,
      ⟨⟨1, state.base.since_s4⟩, true, state.last_s4_featured⟩)
  else do
    let (roll, base) ← w.base.make_s5_roll state.base rng
    pure (roll, ⟨base, false, state.last_s4_featured⟩)

/-- Embedding of `FeaturedWish::roll`. -/
def FeaturedWish.roll (w : FeaturedWish) (state : FeaturedState) (rng : Rng) :
    Option (Roll × FeaturedState) :=
  let dist := w.base.weights.get_distribution w.base.pity state.base
  if rng.u < dist.1 then w.make_s5_roll state rng
  else if rng.u < dist.2 then w.make_s4_roll state rng
  else w.make_s3_roll state rng

/-- Size of the pool a roll kind draws from, for a featured wish. -/
def FeaturedWish.pool_size (w : FeaturedWish) : RollKind → Nat
  | RollKind.FiveStar => w.base.five_star_count
  | RollKind.FiveStarFeatured => w.five_star_featured_count
  | RollKind.FourStar => w.base.four_star_count
  | RollKind.FourStarFeatured => w.four_star_featured_count
  | RollKind.ThreeStar => w.base.three_star_count

/-- Size of the pool a roll kind draws from, for a regular wish.
The regular engine never produces featured kinds; those cases map to
the corresponding base pool so the function is total. -/
def RegularWish.pool_size (w : RegularWish) : RollKind → Nat
  | RollKind.FiveStar => w.five_star_count
  | RollKind.FiveStarFeatured => w.five_star_count
  | RollKind.FourStar => w.four_star_count
  | RollKind.FourStarFeatured => w.four_star_count
  | RollKind.ThreeStar => w.three_star_count

/-- The top-tier odds formula as the spec states it (§4.1): the base
chance up to soft start, then a linear ramp with slope
`(1 - base) / (hard_cap - soft_start)`. -/
def specTopTierOdds (w : Weights) (pity : Pity) (n : Nat) : ℚ :=
  if n ≤ pity.s5_start then w.s5
  else
    w.s5 + ((1 - w.s5) / ((pity.s5_end : ℚ) - (pity.s5_start : ℚ)))
      * ((n : ℚ) - (pity.s5_start : ℚ))

/-- The second-tier odds formula as the spec states it (§4.1): the base
chance strictly below the guarantee point, then a linear ramp with step
`(1 - base) / 2` per roll. -/
def specSecondTierOdds (w : Weights) (pity : Pity) (n : Nat) : ℚ :=
  if n < pity.s4_proc then w.s4
  else w.s4 + ((1 - w.s4) / 2) * ((n : ℚ) - (pity.s4_proc : ℚ) + 1)

/-- C3: the first boundary computed by `get_distribution` follows the
spec's top-tier formula: the base chance while
`rolls_since_top_tier <= soft_start`, the linear ramp beyond it. -/
theorem top_tier_odds_formula (w : Weights) (pity : Pity) (state : RegularState)
    (h : pity.s5_start ≤ pity.s5_end) :
    (w.get_distribution pity state).1 = specTopTierOdds w pity state.since_s5 := by
  unfold Weights.get_distribution specTopTierOdds
  by_cases hle : state.since_s5 ≤ pity.s5_start
  · simp [hle]
  · simp only [if_neg hle]
    rw [Nat.cast_sub h, Nat.cast_sub (le_of_lt (Nat.lt_of_not_le hle))]

/-- C3 witness at a concrete configuration and state. -/
theorem top_tier_odds_formula_witness :
    (73 : Nat) ≤ 90 ∧
      ((Weights.mk (3/500) (51/1000)).get_distribution ⟨73, 90, 9⟩ ⟨74, 10⟩).1
        = specTopTierOdds ⟨3/500, 51/1000⟩ ⟨73, 90, 9⟩ 74 :=
  ⟨by decide, top_tier_odds_formula ⟨3/500, 51/1000⟩ ⟨73, 90, 9⟩ ⟨74, 10⟩ (by decide)⟩

/-- C4: the second-tier component of the distribution
(boundary two minus boundary one) follows the spec's second-tier
formula, and once `rolls_since_second_tier >= guarantee_at + 1` it is
at least 1 (for a base chance at most 1). -/
theorem second_tier_odds_formula (w : Weights) (pity : Pity) (state : RegularState) :
    ((w.get_distribution pity state).2 - (w.get_distribution pity state).1
        = specSecondTierOdds w pity state.since_s4)
    ∧ (w.s4 ≤ 1 → pity.s4_proc + 1 ≤ state.since_s4 →
        1 ≤ (w.get_distribution pity state).2 - (w.get_distribution pity state).1) := by
  have hcomp : (w.get_distribution pity state).2 - (w.get_distribution pity state).1
      = specSecondTierOdds w pity state.since_s4 := by
    unfold Weights.get_distribution specSecondTierOdds
    by_cases hlt : state.since_s4 < pity.s4_proc
    · simp [hlt]
    · simp only [if_neg hlt]
      rw [add_sub_cancel_right]
      push_cast [Nat.cast_sub (Nat.le_of_not_lt hlt)]
      ring
  refine ⟨hcomp, fun hs4 hn => ?_⟩
  rw [hcomp]
  unfold specSecondTierOdds
  rw [if_neg (by omega)]
  have hpn : (pity.s4_proc : ℚ) + 1 ≤ (state.since_s4 : ℚ) := by exact_mod_cast hn
  nlinarith [mul_nonneg (by linarith : (0:ℚ) ≤ 1 - w.s4)
    (by linarith : (0:ℚ) ≤ (state.since_s4 : ℚ) - (pity.s4_proc : ℚ) - 1)]

/-- C4 witness at a concrete configuration and state past the
guarantee point. -/
theorem second_tier_odds_formula_witness :
    ((51/1000 : ℚ) ≤ 1 ∧ (9 : Nat) + 1 ≤ 10) ∧
      1 ≤ ((Weights.mk (3/500) (51/1000)).get_distribution ⟨73, 90, 9⟩ ⟨74, 10⟩).2
            - ((Weights.mk (3/500) (51/1000)).get_distribution ⟨73, 90, 9⟩ ⟨74, 10⟩).1 :=
  ⟨⟨by norm_num, by decide⟩,
    (second_tier_odds_formula ⟨3/500, 51/1000⟩ ⟨73, 90, 9⟩ ⟨74, 10⟩).2
      (by norm_num) (by decide)⟩

/-- C6 counterexample: with base chances 1/2, soft start equal to the
hard cap (both 5, allowed by the claim's `soft_start <= hard_cap`), and
`rolls_since_top_tier = 5 >= hard_cap`, the first boundary is the base
chance 1/2, not at least 1: the claim fails at the degenerate
configuration it admits. -/
theorem hard_cap_guarantee_counterexample :
    ((0:ℚ) ≤ 1/2 ∧ (1/2:ℚ) ≤ 1 ∧ (5 : Nat) ≤ 5)
    ∧ ((Weights.mk (1/2) (1/2)).get_distribution ⟨5, 5, 9⟩ ⟨5, 1⟩).1 = 1/2
    ∧ ¬ 1 ≤ ((Weights.mk (1/2) (1/2)).get_distribution ⟨5, 5, 9⟩ ⟨5, 1⟩).1 := by
  refine ⟨by norm_num, ?_, ?_⟩ <;> norm_num [Weights.get_distribution]

/-- C6 amended: with a base top-tier chance in [0,1] and a strictly
increasing pity window (`soft_start < hard_cap`), every state at or
beyond the hard cap gets a first boundary at least 1. -/
theorem hard_cap_guarantee (w : Weights) (pity : Pity) (state : RegularState)
    (h0 : 0 ≤ w.s5) (h1 : w.s5 ≤ 1) (hlt : pity.s5_start < pity.s5_end)
    (hcap : pity.s5_end ≤ state.since_s5) :
    1 ≤ (w.get_distribution pity state).1 := by
  have hgt : ¬ state.since_s5 ≤ pity.s5_start := by omega
  unfold Weights.get_distribution
  simp only [if_neg hgt]
  have hd : (1:ℚ) ≤ ((pity.s5_end - pity.s5_start : ℕ) : ℚ) := by
    have : 1 ≤ pity.s5_end - pity.s5_start := by omega
    exact_mod_cast this
  have hk : ((pity.s5_end - pity.s5_start : ℕ) : ℚ)
      ≤ ((state.since_s5 - pity.s5_start : ℕ) : ℚ) := by
    have : pity.s5_end - pity.s5_start ≤ state.since_s5 - pity.s5_start := by omega
    exact_mod_cast this
  have hnum : (0:ℚ) ≤ 1 - w.s5 := by linarith
  have hd0 : (0:ℚ) < ((pity.s5_end - pity.s5_start : ℕ) : ℚ) := by linarith
  have key : 1 - w.s5
      ≤ (1 - w.s5) / ((pity.s5_end - pity.s5_start : ℕ) : ℚ)
          * ((state.since_s5 - pity.s5_start : ℕ) : ℚ) := by
    rw [div_mul_eq_mul_div, le_div_iff hd0]
    exact mul_le_mul_of_nonneg_left hk hnum
  linarith

/-- C6 witness at the test configuration (73, 90) at the hard cap. -/
theorem hard_cap_guarantee_witness :
    ((0:ℚ) ≤ 3/500 ∧ (3/500:ℚ) ≤ 1 ∧ (73 : Nat) < 90 ∧ (90 : Nat) ≤ 90)
    ∧ 1 ≤ ((Weights.mk (3/500) (51/1000)).get_distribution ⟨73, 90, 9⟩ ⟨90, 1⟩).1 :=
  ⟨⟨by norm_num, by norm_num, by decide, by decide⟩,
    hard_cap_guarantee ⟨3/500, 51/1000⟩ ⟨73, 90, 9⟩ ⟨90, 1⟩
      (by norm_num) (by norm_num) (by decide) (by decide)⟩

/-- C10: with a base top-tier chance in [0,1] and `soft_start < hard_cap`,
the first boundary is monotone non-decreasing in `rolls_since_top_tier`. -/
theorem top_tier_odds_monotone (w : Weights) (pity : Pity) (state : RegularState)
    (h0 : 0 ≤ w.s5) (h1 : w.s5 ≤ 1) (hlt : pity.s5_start < pity.s5_end) :
    (w.get_distribution pity state).1
      ≤ (w.get_distribution pity ⟨state.since_s5 + 1, state.since_s4⟩).1 := by
  have hinc : (0:ℚ) ≤ (1 - w.s5) / ((pity.s5_end - pity.s5_start : ℕ) : ℚ) := by
    apply div_nonneg (by linarith)
    exact Nat.cast_nonneg _
  by_cases hn1 : state.since_s5 + 1 ≤ pity.s5_start
  · have hn : state.since_s5 ≤ pity.s5_start := by omega
    simp [Weights.get_distribution, hn, hn1]
  · by_cases hn : state.since_s5 ≤ pity.s5_start
    · simp only [Weights.get_distribution, if_pos hn, if_neg hn1]
      have hc : (0:ℚ) ≤ ((state.since_s5 + 1 - pity.s5_start : ℕ) : ℚ) :=
        Nat.cast_nonneg _
      nlinarith [mul_nonneg hinc hc]
    · simp only [Weights.get_distribution, if_neg hn, if_neg hn1]
      have hmono : ((state.since_s5 - pity.s5_start : ℕ) : ℚ)
          ≤ ((state.since_s5 + 1 - pity.s5_start : ℕ) : ℚ) := by
        have : state.since_s5 - pity.s5_start ≤ state.since_s5 + 1 - pity.s5_start := by
          omega
        exact_mod_cast this
      nlinarith [mul_le_mul_of_nonneg_left hmono hinc]

/-- C10 witness inside the ramp at the test configuration. -/
theorem top_tier_odds_monotone_witness :
    ((0:ℚ) ≤ 3/500 ∧ (3/500:ℚ) ≤ 1 ∧ (73 : Nat) < 90)
    ∧ ((Weights.mk (3/500) (51/1000)).get_distribution ⟨73, 90, 9⟩ ⟨80, 5⟩).1
        ≤ ((Weights.mk (3/500) (51/1000)).get_distribution ⟨73, 90, 9⟩ ⟨80 + 1, 5⟩).1 :=
  ⟨⟨by norm_num, by norm_num, by decide⟩,
    top_tier_odds_monotone ⟨3/500, 51/1000⟩ ⟨73, 90, 9⟩ ⟨80, 5⟩
      (by norm_num) (by norm_num) (by decide)⟩

/-- Any successful ranged draw lies strictly inside the range. -/
theorem Rng.gen_range_lt (rng : Rng) (n i : Nat) (h : rng.gen_range n = some i) :
    i < n := by
  unfold Rng.gen_range at h
  split at h
  · exact Option.noConfusion h
  · next hn =>
    injection h with h2
    subst h2
    exact Nat.mod_lt _ (Nat.pos_of_ne_zero hn)

/-- Inversion for `RegularWish::make_s3_roll`. -/
theorem regular_make_s3_roll_eq_some (w : RegularWish) (s : RegularState) (rng : Rng)
    (r : Roll) (s' : RegularState) (h : w.make_s3_roll s rng = some (r, s')) :
    r.kind = RollKind.ThreeStar ∧ r.index < w.three_star_count
      ∧ s' = ⟨s.since_s5 + 1, s.since_s4 + 1⟩ := by
  unfold RegularWish.make_s3_roll at h
  cases hg : rng.gen_range w.three_star_count with
  | none => rw [hg] at h; exact Option.noConfusion h
  | some j =>
    rw [hg] at h
    simp at h
    obtain ⟨h1, h2⟩ := h
    subst h1
    exact ⟨rfl, Rng.gen_range_lt rng _ j hg, h2.symm⟩

/-- Inversion for `RegularWish::make_s4_roll`. -/
theorem regular_make_s4_roll_eq_some (w : RegularWish) (s : RegularState) (rng : Rng)
    (r : Roll) (s' : RegularState) (h : w.make_s4_roll s rng = some (r, s')) :
    r.kind = RollKind.FourStar ∧ r.index < w.four_star_count
      ∧ s' = ⟨s.since_s5 + 1, 1⟩ := by
  unfold RegularWish.make_s4_roll at h
  cases hg : rng.gen_range w.four_star_count with
  | none => rw [hg] at h; exact Option.noConfusion h
  | some j =>
    rw [hg] at h
    simp at h
    obtain ⟨h1, h2⟩ := h
    subst h1
    exact ⟨rfl, Rng.gen_range_lt rng _ j hg, h2.symm⟩

/-- Inversion for `RegularWish::make_s5_roll`. -/
theorem regular_make_s5_roll_eq_some (w : RegularWish) (s : RegularState) (rng : Rng)
    (r : Roll) (s' : RegularState) (h : w.make_s5_roll s rng = some (r, s')) :
    r.kind = RollKind.FiveStar ∧ r.index < w.five_star_count
      ∧ s' = ⟨1, s.since_s4 + 1⟩ := by
  unfold RegularWish.make_s5_roll at h
  cases hg : rng.gen_range w.five_star_count with
  | none => rw [hg] at h; exact Option.noConfusion h
  | some j =>
    rw [hg] at h
    simp at h
    obtain ⟨h1, h2⟩ := h
    subst h1
    exact ⟨rfl, Rng.gen_range_lt rng _ j hg, h2.symm⟩

/-- Inversion for `FeaturedWish::make_s3_roll`: the base roll with both
featured flags carried through. -/
theorem featured_make_s3_roll_eq_some (w : FeaturedWish) (s : FeaturedState) (rng : Rng)
    (r : Roll) (s' : FeaturedState) (h : w.make_s3_roll s rng = some (r, s')) :
    r.kind = RollKind.ThreeStar ∧ r.index < w.base.three_star_count
      ∧ s' = ⟨⟨s.base.since_s5 + 1, s.base.since_s4 + 1⟩,
          s.last_s5_featured, s.last_s4_featured⟩ := by
  unfold FeaturedWish.make_s3_roll at h
  cases hb : w.base.make_s3_roll s.base rng with
  | none => rw [hb] at h; exact Option.noConfusion h
  | some p =>
    rw [hb] at h
    obtain ⟨r0, b0⟩ := p
    simp at h
    obtain ⟨h1, h2⟩ := h
    obtain ⟨hk, hi, hs⟩ := regular_make_s3_roll_eq_some _ _ _ _ _ hb
    subst h1
    refine ⟨hk, hi, ?_⟩
    rw [← h2, hs]

/-- Inversion for `FeaturedWish::make_s4_roll`: either the forced
featured branch (guard true) or the delegated base branch. -/
theorem featured_make_s4_roll_eq_some (w : FeaturedWish) (s : FeaturedState) (rng : Rng)
    (r : Roll) (s' : FeaturedState) (h : w.make_s4_roll s rng = some (r, s')) :
    (r.kind = RollKind.FourStarFeatured ∧ r.index < w.four_star_featured_count
       ∧ s' = ⟨⟨s.base.since_s5, 1⟩, s.last_s5_featured, true⟩)
    ∨ (r.kind = RollKind.FourStar ∧ r.index < w.base.four_star_count
       ∧ s' = ⟨⟨s.base.since_s5 + 1, 1⟩, s.last_s5_featured, false⟩) := by
  unfold FeaturedWish.make_s4_roll at h
  split at h
  · left
    cases hg : rng.gen_range w.four_star_featured_count with
    | none => rw [hg] at h; exact Option.noConfusion h
    | some j =>
      rw [hg] at h
      simp at h
      obtain ⟨h1, h2⟩ := h
      subst h1
      exact ⟨rfl, Rng.gen_range_lt rng _ j hg, h2.symm⟩
  · right
    cases hb : w.base.make_s4_roll s.base rng with
    | none => rw [hb] at h; exact Option.noConfusion h
    | some p =>
      rw [hb] at h
      obtain ⟨r0, b0⟩ := p
      simp at h
      obtain ⟨h1, h2⟩ := h
      obtain ⟨hk, hi, hs⟩ := regular_make_s4_roll_eq_some _ _ _ _ _ hb
      subst h1
      refine ⟨hk, hi, ?_⟩
      rw [← h2, hs]

/-- Inversion for `FeaturedWish::make_s5_roll`: either the forced
featured branch (guard true) or the delegated base branch. -/
theorem featured_make_s5_roll_eq_some (w : FeaturedWish) (s : FeaturedState) (rng : Rng)
    (r : Roll) (s' : FeaturedState) (h : w.make_s5_roll s rng = some (r, s')) :
    (r.kind = RollKind.FiveStarFeatured ∧ r.index < w.five_star_featured_count
       ∧ s' = ⟨⟨1, s.base.since_s4⟩, true, s.last_s4_featured⟩)
    ∨ (r.kind = RollKind.FiveStar ∧ r.index < w.base.five_star_count
       ∧ s' = ⟨⟨1, s.base.since_s4 + 1⟩, false, s.last_s4_featured⟩) := by
  unfold FeaturedWish.make_s5_roll at h
  split at h
  · left
    cases hg : rng.gen_range w.five_star_featured_count with
    | none => rw [hg] at h; exact Option.noConfusion h
    | some j =>
      rw [hg] at h
      simp at h
      obtain ⟨h1, h2⟩ := h
      subst h1
      exact ⟨rfl, Rng.gen_range_lt rng _ j hg, h2.symm⟩
  · right
    cases hb : w.base.make_s5_roll s.base rng with
    | none => rw [hb] at h; exact Option.noConfusion h
    | some p =>
      rw [hb] at h
      obtain ⟨r0, b0⟩ := p
      simp at h
      obtain ⟨h1, h2⟩ := h
      obtain ⟨hk, hi, hs⟩ := regular_make_s5_roll_eq_some _ _ _ _ _ hb
      subst h1
      refine ⟨hk, hi, ?_⟩
      rw [← h2, hs]

/-- Full case analysis of a successful `RegularWish::roll`, recording
the draw comparisons, the outcome, the index bound, and the next state. -/
theorem regular_roll_cases (w : RegularWish) (s : RegularState) (rng : Rng)
    (r : Roll) (s' : RegularState) (h : w.roll s rng = some (r, s')) :
    (rng.u < (w.weights.get_distribution w.pity s).1
       ∧ r.kind = RollKind.FiveStar ∧ r.index < w.five_star_count
       ∧ s' = ⟨1, s.since_s4 + 1⟩)
    ∨ (¬ rng.u < (w.weights.get_distribution w.pity s).1
       ∧ rng.u < (w.weights.get_distribution w.pity s).2
       ∧ r.kind = RollKind.FourStar ∧ r.index < w.four_star_count
       ∧ s' = ⟨s.since_s5 + 1, 1⟩)
    ∨ (¬ rng.u < (w.weights.get_distribution w.pity s).1
       ∧ ¬ rng.u < (w.weights.get_distribution w.pity s).2
       ∧ r.kind = RollKind.ThreeStar ∧ r.index < w.three_star_count
       ∧ s' = ⟨s.since_s5 + 1, s.since_s4 + 1⟩) := by
  simp only [RegularWish.roll] at h
  split at h
  · next h1 =>
    exact Or.inl ⟨h1, regular_make_s5_roll_eq_some _ _ _ _ _ h⟩
  · next h1 =>
    split at h
    · next h2 =>
      exact Or.inr (Or.inl ⟨h1, h2, regular_make_s4_roll_eq_some _ _ _ _ _ h⟩)
    · next h2 =>
      exact Or.inr (Or.inr ⟨h1, h2, regular_make_s3_roll_eq_some _ _ _ _ _ h⟩)

/-- Full case analysis of a successful `FeaturedWish::roll`: the five
possible outcomes with their index bounds and next states. -/
theorem featured_roll_cases (w : FeaturedWish) (s : FeaturedState) (rng : Rng)
    (r : Roll) (s' : FeaturedState) (h : w.roll s rng = some (r, s')) :
    (r.kind = RollKind.FiveStarFeatured ∧ r.index < w.five_star_featured_count
       ∧ s' = ⟨⟨1, s.base.since_s4⟩, true, s.last_s4_featured⟩)
    ∨ (r.kind = RollKind.FiveStar ∧ r.index < w.base.five_star_count
       ∧ s' = ⟨⟨1, s.base.since_s4 + 1⟩, false, s.last_s4_featured⟩)
    ∨ (r.kind = RollKind.FourStarFeatured ∧ r.index < w.four_star_featured_count
       ∧ s' = ⟨⟨s.base.since_s5, 1⟩, s.last_s5_featured, true⟩)
    ∨ (r.kind = RollKind.FourStar ∧ r.index < w.base.four_star_count
       ∧ s' = ⟨⟨s.base.since_s5 + 1, 1⟩, s.last_s5_featured, false⟩)
    ∨ (r.kind = RollKind.ThreeStar ∧ r.index < w.base.three_star_count
       ∧ s' = ⟨⟨s.base.since_s5 + 1, s.base.since_s4 + 1⟩, s.last_s5_featured,
           s.last_s4_featured⟩) := by
  simp only [FeaturedWish.roll] at h
  split at h
  · rcases featured_make_s5_roll_eq_some _ _ _ _ _ h with h5 | h5
    · exact Or.inl h5
    · exact Or.inr (Or.inl h5)
  · split at h
    · rcases featured_make_s4_roll_eq_some _ _ _ _ _ h with h4 | h4
      · exact Or.inr (Or.inr (Or.inl h4))
      · exact Or.inr (Or.inr (Or.inr (Or.inl h4)))
    · exact Or.inr (Or.inr (Or.inr (Or.inr
        (featured_make_s3_roll_eq_some _ _ _ _ _ h))))

/-- C5: classification and transition of the regular engine: a draw
below the first boundary yields a FiveStar roll with an in-pool index
and state (1, since_s4 + 1); between the boundaries a FourStar roll
with state (since_s5 + 1, 1); otherwise a ThreeStar roll with both
counters incremented. -/
theorem regular_roll_classification (w : RegularWish) (s : RegularState) (rng : Rng)
    (r : Roll) (s' : RegularState) (h : w.roll s rng = some (r, s')) :
    (rng.u < (w.weights.get_distribution w.pity s).1 →
        r.kind = RollKind.FiveStar ∧ r.index < w.five_star_count
          ∧ s' = ⟨1, s.since_s4 + 1⟩)
    ∧ (¬ rng.u < (w.weights.get_distribution w.pity s).1 →
        rng.u < (w.weights.get_distribution w.pity s).2 →
        r.kind = RollKind.FourStar ∧ r.index < w.four_star_count
          ∧ s' = ⟨s.since_s5 + 1, 1⟩)
    ∧ (¬ rng.u < (w.weights.get_distribution w.pity s).1 →
        ¬ rng.u < (w.weights.get_distribution w.pity s).2 →
        r.kind = RollKind.ThreeStar ∧ r.index < w.three_star_count
          ∧ s' = ⟨s.since_s5 + 1, s.since_s4 + 1⟩) := by
  rcases regular_roll_cases w s rng r s' h with
    ⟨h1, hrest⟩ | ⟨h1, h2, hrest⟩ | ⟨h1, h2, hrest⟩
  · exact ⟨fun _ => hrest, fun hn _ => absurd h1 hn, fun hn _ => absurd h1 hn⟩
  · exact ⟨fun hu => absurd hu h1, fun _ _ => hrest, fun _ hn => absurd h2 hn⟩
  · exact ⟨fun hu => absurd hu h1, fun _ hu => absurd hu h2, fun _ _ => hrest⟩

/-- C5 witness: a concrete top-tier hit. -/
theorem regular_roll_classification_witness :
    ((RegularWish.mk ⟨1/2, 1/4⟩ ⟨5, 10, 9⟩ 1 1 1).roll ⟨1, 1⟩ ⟨0, false, fun _ => 0⟩
        = some (⟨RollKind.FiveStar, 0⟩, ⟨1, 2⟩))
    ∧ (Roll.mk RollKind.FiveStar 0).kind = RollKind.FiveStar
    ∧ (Roll.mk RollKind.FiveStar 0).index < 1
    ∧ RegularState.mk 1 2 = ⟨1, 1 + 1⟩ :=
  ⟨by norm_num [RegularWish.roll, RegularWish.make_s5_roll, Weights.get_distribution,
      Rng.gen_range],
    (regular_roll_classification ⟨⟨1/2, 1/4⟩, ⟨5, 10, 9⟩, 1, 1, 1⟩ ⟨1, 1⟩
        ⟨0, false, fun _ => 0⟩ ⟨RollKind.FiveStar, 0⟩ ⟨1, 2⟩
        (by norm_num [RegularWish.roll, RegularWish.make_s5_roll, Weights.get_distribution,
          Rng.gen_range])).1
      (by norm_num [Weights.get_distribution])⟩

/-- C2 counterexample: a forced-featured second-tier roll of the
featured engine, from base state (3, 3), returns since_s5 = 3 — the
counter not reset by its own tier is carried unchanged, not
incremented to 4 as the claim requires. -/
theorem counter_reset_law_counterexample :
    ((FeaturedWish.mk ⟨⟨0, 1⟩, ⟨5, 10, 9⟩, 1, 1, 1⟩ 1 1 0).roll ⟨⟨3, 3⟩, true, false⟩
        ⟨0, false, fun _ => 0⟩
      = some (⟨RollKind.FourStarFeatured, 0⟩, ⟨⟨3, 1⟩, true, true⟩))
    ∧ (3 : Nat) ≠ 3 + 1 :=
  ⟨by norm_num [FeaturedWish.roll, FeaturedWish.make_s4_roll, Weights.get_distribution,
      Rng.gen_range, Rng.gen_bool],
    by decide⟩

/-- C2 amended: in either engine a top-tier roll resets since_s5 to 1
and a second-tier roll resets since_s4 to 1; a counter not reset by its
own tier's drop is incremented by exactly 1, except in the featured
engine's forced-featured branches, where the other tier's counter is
carried unchanged. -/
theorem counter_reset_law :
    (∀ (w : RegularWish) (s : RegularState) (rng : Rng) (r : Roll) (s' : RegularState),
        w.roll s rng = some (r, s') →
        (r.kind = RollKind.FiveStar → s'.since_s5 = 1 ∧ s'.since_s4 = s.since_s4 + 1)
        ∧ (r.kind = RollKind.FourStar → s'.since_s5 = s.since_s5 + 1 ∧ s'.since_s4 = 1)
        ∧ (r.kind = RollKind.ThreeStar →
            s'.since_s5 = s.since_s5 + 1 ∧ s'.since_s4 = s.since_s4 + 1))
    ∧ (∀ (w : FeaturedWish) (s : FeaturedState) (rng : Rng) (r : Roll) (s' : FeaturedState),
        w.roll s rng = some (r, s') →
        ((r.kind = RollKind.FiveStar ∨ r.kind = RollKind.FiveStarFeatured) →
            s'.base.since_s5 = 1)
        ∧ ((r.kind = RollKind.FourStar ∨ r.kind = RollKind.FourStarFeatured) →
            s'.base.since_s4 = 1)
        ∧ (r.kind = RollKind.FiveStar → s'.base.since_s4 = s.base.since_s4 + 1)
        ∧ (r.kind = RollKind.FiveStarFeatured → s'.base.since_s4 = s.base.since_s4)
        ∧ (r.kind = RollKind.FourStar → s'.base.since_s5 = s.base.since_s5 + 1)
        ∧ (r.kind = RollKind.FourStarFeatured → s'.base.since_s5 = s.base.since_s5)
        ∧ (r.kind = RollKind.ThreeStar →
            s'.base.since_s5 = s.base.since_s5 + 1
              ∧ s'.base.since_s4 = s.base.since_s4 + 1)) := by
  constructor
  · intro w s rng r s' h
    rcases regular_roll_cases w s rng r s' h with
      ⟨_, hk, _, hs⟩ | ⟨_, _, hk, _, hs⟩ | ⟨_, _, hk, _, hs⟩ <;>
      subst hs <;>
      refine ⟨?_, ?_, ?_⟩ <;> intro hf <;>
      first
        | exact ⟨rfl, rfl⟩
        | (rw [hk] at hf; exact RollKind.noConfusion hf)
  · intro w s rng r s' h
    rcases featured_roll_cases w s rng r s' h with
      ⟨hk, _, hs⟩ | ⟨hk, _, hs⟩ | ⟨hk, _, hs⟩ | ⟨hk, _, hs⟩ | ⟨hk, _, hs⟩ <;>
      subst hs <;>
      refine ⟨?_, ?_, ?_, ?_, ?_, ?_, ?_⟩ <;> intro hf <;>
      first
        | exact rfl
        | exact ⟨rfl, rfl⟩
        | (rw [hk] at hf; exact RollKind.noConfusion hf)
        | (rcases hf with hf | hf <;> rw [hk] at hf <;> exact RollKind.noConfusion hf)

/-- C2 witness: a concrete regular top-tier roll resetting since_s5 to
1 and incrementing since_s4. -/
theorem counter_reset_law_witness :
    ((RegularWish.mk ⟨1/2, 1/4⟩ ⟨5, 10, 9⟩ 1 1 1).roll ⟨2, 7⟩ ⟨0, false, fun _ => 0⟩
        = some (⟨RollKind.FiveStar, 0⟩, ⟨1, 8⟩))
    ∧ (RegularState.mk 1 8).since_s5 = 1 ∧ (RegularState.mk 1 8).since_s4 = 7 + 1 :=
  ⟨by norm_num [RegularWish.roll, RegularWish.make_s5_roll, Weights.get_distribution,
      Rng.gen_range],
    (counter_reset_law.1 ⟨⟨1/2, 1/4⟩, ⟨5, 10, 9⟩, 1, 1, 1⟩ ⟨2, 7⟩ ⟨0, false, fun _ => 0⟩
        ⟨RollKind.FiveStar, 0⟩ ⟨1, 8⟩
        (by norm_num [RegularWish.roll, RegularWish.make_s5_roll, Weights.get_distribution,
          Rng.gen_range])).1 rfl⟩

/-- C7: featured-flag frame property: last_s5_featured changes only on
a top-tier roll, last_s4_featured only on a second-tier roll, and a
third-tier roll carries both flags through unchanged. -/
theorem featured_flag_frame (w : FeaturedWish) (s : FeaturedState) (rng : Rng)
    (r : Roll) (s' : FeaturedState) (h : w.roll s rng = some (r, s')) :
    (s'.last_s5_featured ≠ s.last_s5_featured →
        r.kind = RollKind.FiveStar ∨ r.kind = RollKind.FiveStarFeatured)
    ∧ (s'.last_s4_featured ≠ s.last_s4_featured →
        r.kind = RollKind.FourStar ∨ r.kind = RollKind.FourStarFeatured)
    ∧ (r.kind = RollKind.ThreeStar →
        s'.last_s5_featured = s.last_s5_featured
          ∧ s'.last_s4_featured = s.last_s4_featured) := by
  rcases featured_roll_cases w s rng r s' h with
    ⟨hk, _, hs⟩ | ⟨hk, _, hs⟩ | ⟨hk, _, hs⟩ | ⟨hk, _, hs⟩ | ⟨hk, _, hs⟩ <;> subst hs
  · exact ⟨fun _ => Or.inr hk, fun hne => absurd rfl hne,
      fun hf => by rw [hk] at hf; exact RollKind.noConfusion hf⟩
  · exact ⟨fun _ => Or.inl hk, fun hne => absurd rfl hne,
      fun hf => by rw [hk] at hf; exact RollKind.noConfusion hf⟩
  · exact ⟨fun hne => absurd rfl hne, fun _ => Or.inr hk,
      fun hf => by rw [hk] at hf; exact RollKind.noConfusion hf⟩
  · exact ⟨fun hne => absurd rfl hne, fun _ => Or.inl hk,
      fun hf => by rw [hk] at hf; exact RollKind.noConfusion hf⟩
  · exact ⟨fun hne => absurd rfl hne, fun hne => absurd rfl hne, fun _ => ⟨rfl, rfl⟩⟩

/-- C7 witness: a concrete third-tier featured roll carrying both flags. -/
theorem featured_flag_frame_witness :
    ((FeaturedWish.mk ⟨⟨0, 0⟩, ⟨5, 10, 9⟩, 1, 1, 1⟩ 1 1 0).roll ⟨⟨1, 1⟩, false, true⟩
        ⟨0, false, fun _ => 0⟩
      = some (⟨RollKind.ThreeStar, 0⟩, ⟨⟨2, 2⟩, false, true⟩))
    ∧ (FeaturedState.mk ⟨2, 2⟩ false true).last_s5_featured
        = (FeaturedState.mk ⟨1, 1⟩ false true).last_s5_featured
    ∧ (FeaturedState.mk ⟨2, 2⟩ false true).last_s4_featured
        = (FeaturedState.mk ⟨1, 1⟩ false true).last_s4_featured :=
  ⟨by norm_num [FeaturedWish.roll, FeaturedWish.make_s3_roll, RegularWish.make_s3_roll,
      Weights.get_distribution, Rng.gen_range],
    (featured_flag_frame ⟨⟨⟨0, 0⟩, ⟨5, 10, 9⟩, 1, 1, 1⟩, 1, 1, 0⟩ ⟨⟨1, 1⟩, false, true⟩
        ⟨0, false, fun _ => 0⟩ ⟨RollKind.ThreeStar, 0⟩ ⟨⟨2, 2⟩, false, true⟩
        (by norm_num [FeaturedWish.roll, FeaturedWish.make_s3_roll, RegularWish.make_s3_roll,
          Weights.get_distribution, Rng.gen_range])).2.2 rfl⟩

/-- C9 counterexample: the featured engine, rolling from an input state
with since_s5 = 0 through the forced-featured second-tier branch,
returns since_s5 = 0 — the output counter is carried unchanged, not
"reset to 1 or an input counter plus 1" as the claim asserts. -/
theorem counters_positive_counterexample :
    ((FeaturedWish.mk ⟨⟨0, 1⟩, ⟨5, 10, 9⟩, 1, 1, 1⟩ 1 1 0).roll ⟨⟨0, 3⟩, true, false⟩
        ⟨0, false, fun _ => 0⟩
      = some (⟨RollKind.FourStarFeatured, 0⟩, ⟨⟨0, 1⟩, true, true⟩))
    ∧ ¬ 1 ≤ (FeaturedState.mk ⟨0, 1⟩ true true).base.since_s5 :=
  ⟨by norm_num [FeaturedWish.roll, FeaturedWish.make_s4_roll, Weights.get_distribution,
      Rng.gen_range, Rng.gen_bool],
    by decide⟩

/-- C9 amended: the regular engine returns counters at least 1 from any
input state; the featured engine returns counters at least 1 from any
input state whose counters are at least 1 (each output counter is reset
to 1, an input counter plus 1, or an input counter carried unchanged),
so counters-at-least-1 is preserved by every operation. -/
theorem counters_positive :
    (∀ (w : RegularWish) (s : RegularState) (rng : Rng) (r : Roll) (s' : RegularState),
        w.roll s rng = some (r, s') → 1 ≤ s'.since_s5 ∧ 1 ≤ s'.since_s4)
    ∧ (∀ (w : FeaturedWish) (s : FeaturedState) (rng : Rng) (r : Roll) (s' : FeaturedState),
        1 ≤ s.base.since_s5 → 1 ≤ s.base.since_s4 →
        w.roll s rng = some (r, s') →
        1 ≤ s'.base.since_s5 ∧ 1 ≤ s'.base.since_s4) := by
  constructor
  · intro w s rng r s' h
    rcases regular_roll_cases w s rng r s' h with
      ⟨_, _, _, hs⟩ | ⟨_, _, _, _, hs⟩ | ⟨_, _, _, _, hs⟩ <;> subst hs
    · exact ⟨Nat.le_refl 1, Nat.le_add_left 1 _⟩
    · exact ⟨Nat.le_add_left 1 _, Nat.le_refl 1⟩
    · exact ⟨Nat.le_add_left 1 _, Nat.le_add_left 1 _⟩
  · intro w s rng r s' h5 h4 h
    rcases featured_roll_cases w s rng r s' h with
      ⟨_, _, hs⟩ | ⟨_, _, hs⟩ | ⟨_, _, hs⟩ | ⟨_, _, hs⟩ | ⟨_, _, hs⟩ <;> subst hs
    · exact ⟨Nat.le_refl 1, h4⟩
    · exact ⟨Nat.le_refl 1, Nat.le_add_left 1 _⟩
    · exact ⟨h5, Nat.le_refl 1⟩
    · exact ⟨Nat.le_add_left 1 _, Nat.le_refl 1⟩
    · exact ⟨Nat.le_add_left 1 _, Nat.le_add_left 1 _⟩

/-- C9 witness: a concrete featured third-tier roll preserving
counters-at-least-1. -/
theorem counters_positive_witness :
    ((FeaturedWish.mk ⟨⟨0, 0⟩, ⟨5, 10, 9⟩, 1, 1, 1⟩ 1 1 0).roll ⟨⟨4, 6⟩, true, true⟩
        ⟨0, false, fun _ => 0⟩
      = some (⟨RollKind.ThreeStar, 0⟩, ⟨⟨5, 7⟩, true, true⟩))
    ∧ 1 ≤ (FeaturedState.mk ⟨5, 7⟩ true true).base.since_s5
    ∧ 1 ≤ (FeaturedState.mk ⟨5, 7⟩ true true).base.since_s4 :=
  ⟨by norm_num [FeaturedWish.roll, FeaturedWish.make_s3_roll, RegularWish.make_s3_roll,
      Weights.get_distribution, Rng.gen_range],
    counters_positive.2 ⟨⟨⟨0, 0⟩, ⟨5, 10, 9⟩, 1, 1, 1⟩, 1, 1, 0⟩ ⟨⟨4, 6⟩, true, true⟩
      ⟨0, false, fun _ => 0⟩ ⟨RollKind.ThreeStar, 0⟩ ⟨⟨5, 7⟩, true, true⟩
      (by decide) (by decide)
      (by norm_num [FeaturedWish.roll, FeaturedWish.make_s3_roll, RegularWish.make_s3_roll,
        Weights.get_distribution, Rng.gen_range])⟩

/-- C8: with every pool size at least 1 (including both featured pools
for a featured wish), a roll of either engine never performs an
empty-range draw (it always returns a result), and the returned item
index is strictly below the size of the pool its kind designates. -/
theorem valid_config_safety :
    (∀ (w : RegularWish) (s : RegularState) (rng : Rng),
        1 ≤ w.five_star_count → 1 ≤ w.four_star_count → 1 ≤ w.three_star_count →
        (w.roll s rng).isSome = true
          ∧ ∀ (r : Roll) (s' : RegularState),
              w.roll s rng = some (r, s') → r.index < w.pool_size r.kind)
    ∧ (∀ (w : FeaturedWish) (s : FeaturedState) (rng : Rng),
        1 ≤ w.base.five_star_count → 1 ≤ w.base.four_star_count →
        1 ≤ w.base.three_star_count → 1 ≤ w.five_star_featured_count →
        1 ≤ w.four_star_featured_count →
        (w.roll s rng).isSome = true
          ∧ ∀ (r : Roll) (s' : FeaturedState),
              w.roll s rng = some (r, s') → r.index < w.pool_size r.kind) := by
  constructor
  · intro w s rng h5 h4 h3
    have hne5 : ¬ w.five_star_count = 0 := by omega
    have hne4 : ¬ w.four_star_count = 0 := by omega
    have hne3 : ¬ w.three_star_count = 0 := by omega
    constructor
    · simp only [RegularWish.roll]
      split
      · simp [RegularWish.make_s5_roll, Rng.gen_range, hne5]
      · split
        · simp [RegularWish.make_s4_roll, Rng.gen_range, hne4]
        · simp [RegularWish.make_s3_roll, Rng.gen_range, hne3]
    · intro r s' h
      rcases regular_roll_cases w s rng r s' h with
        ⟨_, hk, hi, _⟩ | ⟨_, _, hk, hi, _⟩ | ⟨_, _, hk, hi, _⟩ <;>
        (simp only [hk, RegularWish.pool_size]; exact hi)
  · intro w s rng h5 h4 h3 hf5 hf4
    have hne5 : ¬ w.base.five_star_count = 0 := by omega
    have hne4 : ¬ w.base.four_star_count = 0 := by omega
    have hne3 : ¬ w.base.three_star_count = 0 := by omega
    have hnef5 : ¬ w.five_star_featured_count = 0 := by omega
    have hnef4 : ¬ w.four_star_featured_count = 0 := by omega
    constructor
    · simp only [FeaturedWish.roll]
      split
      · simp only [FeaturedWish.make_s5_roll]
        split
        · simp [Rng.gen_range, hnef5]
        · simp [RegularWish.make_s5_roll, Rng.gen_range, hne5]
      · split
        · simp only [FeaturedWish.make_s4_roll]
          split
          · simp [Rng.gen_range, hnef4]
          · simp [RegularWish.make_s4_roll, Rng.gen_range, hne4]
        · simp [FeaturedWish.make_s3_roll, RegularWish.make_s3_roll, Rng.gen_range, hne3]
    · intro r s' h
      rcases featured_roll_cases w s rng r s' h with
        ⟨hk, hi, _⟩ | ⟨hk, hi, _⟩ | ⟨hk, hi, _⟩ | ⟨hk, hi, _⟩ | ⟨hk, hi, _⟩ <;>
        (simp only [hk, FeaturedWish.pool_size]; exact hi)

/-- C8 witness: a concrete successful regular roll with its index
inside the designated pool. -/
theorem valid_config_safety_witness :
    (((RegularWish.mk ⟨1, 0⟩ ⟨5, 10, 9⟩ 2 3 4).roll ⟨1, 1⟩ ⟨0, false, fun _ => 1⟩).isSome
        = true)
    ∧ (Roll.mk RollKind.FiveStar 1).index
        < (RegularWish.mk ⟨1, 0⟩ ⟨5, 10, 9⟩ 2 3 4).pool_size (Roll.mk RollKind.FiveStar 1).kind :=
  ⟨(valid_config_safety.1 ⟨⟨1, 0⟩, ⟨5, 10, 9⟩, 2, 3, 4⟩ ⟨1, 1⟩ ⟨0, false, fun _ => 1⟩
      (by decide) (by decide) (by decide)).1,
    (valid_config_safety.1 ⟨⟨1, 0⟩, ⟨5, 10, 9⟩, 2, 3, 4⟩ ⟨1, 1⟩ ⟨0, false, fun _ => 1⟩
      (by decide) (by decide) (by decide)).2 ⟨RollKind.FiveStar, 1⟩ ⟨1, 2⟩
      (by norm_num [RegularWish.roll, RegularWish.make_s5_roll, Weights.get_distribution,
        Rng.gen_range])⟩

/-- C1 (code bug at wish.rs:332): from a state whose last top-tier drop
was NOT featured (last_s5_featured = false) but whose last second-tier
drop was featured (last_s4_featured = true), with the uniform draw
below the top boundary and the override Bernoulli failing, the engine
returns a plain FiveStar roll and records last_s5_featured = false,
where the claim (and the engine's own documentation of the per-category
featured guarantee) requires a TopTierFeatured roll with the flag set:
the guard reads last_s4_featured where last_s5_featured was intended. -/
theorem featured_top_tier_guarantee_code_bug :
    ((FeaturedWish.mk ⟨⟨1, 0⟩, ⟨5, 10, 9⟩, 1, 1, 1⟩ 1 1 (1/2)).roll ⟨⟨1, 1⟩, false, true⟩
        ⟨0, false, fun _ => 0⟩
      = some (⟨RollKind.FiveStar, 0⟩, ⟨⟨1, 2⟩, false, true⟩))
    ∧ RollKind.FiveStar ≠ RollKind.FiveStarFeatured :=
  ⟨by norm_num [FeaturedWish.roll, FeaturedWish.make_s5_roll, RegularWish.make_s5_roll,
      Weights.get_distribution, Rng.gen_range, Rng.gen_bool],
    by decide⟩
